import Mathlib

/-! Nullable numerics of package `null`: the fast-path JSON codec and the value overlay.

A shallow embedding of `decode`, `encode` and the two codec adapters
`nullFloatEncDec` / `floatEncDec` of `json.go`, together with the part of the
json-iterator engine they drive (`Iterator`, `Stream`) at the level of whole
JSON value tokens.

* A Go `float64` is its IEEE-754 binary64 bit pattern, split into the three
  fields sign / biased exponent / fraction.
* The iterator is the list of value tokens still to be read plus the first
  error reported so far; the stream is the list of tokens written so far plus
  its error.
* The engine's number parser and number formatter (`ReadFloat64` on a number
  literal, `WriteFloat64` on a finite value) are parameters of the model.
* `float.go` and `int.go` are not among the sources: the types and methods of
  theirs that `json.go` and the test files use are modelled from the spec, and
  the tests of `float_test.go` and `int_test.go` are embedded as boolean
  functions that the models are checked against.
-/

namespace null

/-! ## float64 and the `math` predicates used by `json.go` -/

/-- A Go `float64`: the IEEE-754 binary64 bit pattern, as sign bit, 11-bit biased
exponent and 52-bit fraction. -/
structure float64 where
  sign : Bool
  exp : Fin 2048
  frac : Fin 4503599627370496
  deriving DecidableEq, Repr

/-- The zero value of `float64` (positive zero, all bits clear). -/
def float64.zero : float64 := ⟨false, 0, 0⟩

/-- Go `math.IsNaN`: exponent all ones and a non-zero fraction. -/
def math.IsNaN (f : float64) : Bool :=
  f.exp == 2047 && f.frac != 0

/-- Go `math.IsInf(f, sign)`: `sign >= 0 && f > MaxFloat64 || sign <= 0 && f < -MaxFloat64`;
the only value above `MaxFloat64` is positive infinity, the only one below
`-MaxFloat64` is negative infinity. -/
def math.IsInf (f : float64) (sign : Int) : Bool :=
  (decide (sign ≥ 0) && (!f.sign && f.exp == 2047 && f.frac == 0)) ||
  (decide (sign ≤ 0) && (f.sign && f.exp == 2047 && f.frac == 0))

/-- Go `math.Inf(sign)`: positive infinity if `sign >= 0` (bits `0x7FF0000000000000`),
negative infinity otherwise (bits `0xFFF0000000000000`). -/
def math.Inf (sign : Int) : float64 :=
  if sign ≥ 0 then ⟨false, 2047, 0⟩ else ⟨true, 2047, 0⟩

/-- Go `math.NaN()`: the value with bits `0x7FF8000000000001`. -/
def math.NaN : float64 := ⟨false, 2047, 2251799813685249⟩

/-! ## The nullable float -/

/-- Modelled from the spec: the nullable float type `Float` of `float.go`, which is not
among the sources; §3 gives it as the pair `{ value, valid }`, and its own structured
form `{"Float64": number, "Valid": bool}` gives the field names `json.go` uses. -/
structure Float where
  Float64 : float64
  Valid : Bool
  deriving DecidableEq, Repr

/-- The Go zero value `Float{}`: value `0`, not valid. -/
def Float.zeroValue : Float := ⟨float64.zero, false⟩

/-- Modelled from the spec: the constructor `NewFloat` of `float.go`, which is not among
the sources; §4.1 `New(value, valid)` gives the exact pair as given. -/
def NewFloat (f : float64) (valid : Bool) : Float := ⟨f, valid⟩

/-- Modelled from the spec: the constructor `FloatFrom` of `float.go`, which is not among
the sources; §4.1 `From(value)` is always valid. -/
def FloatFrom (f : float64) : Float := NewFloat f true

/-! ## Tokens, the iterator and the stream -/

/-- One JSON value as the engine sees it. A number carries its literal text; a string
carries its unescaped content; `invalid` is input whose first byte starts no JSON
value. -/
inductive Token where
  | null
  | number (lit : String)
  | string (s : String)
  | bool (b : Bool)
  | array (elems : List Token)
  | object (fields : List (String × Token))
  | invalid

/-- The engine's `ValueType`, the result of `WhatIsNext`. -/
inductive ValueType where
  | InvalidValue
  | StringValue
  | NumberValue
  | NilValue
  | BoolValue
  | ArrayValue
  | ObjectValue
  deriving DecidableEq, Repr

/-- The value type the engine's first-byte table gives a token. -/
def Token.valueType : Token → ValueType
  | .null => .NilValue
  | .number _ => .NumberValue
  | .string _ => .StringValue
  | .bool _ => .BoolValue
  | .array _ => .ArrayValue
  | .object _ => .ObjectValue
  | .invalid => .InvalidValue

/-- The engine's `Iterator`: the tokens not yet consumed and the first error reported.
(The end-of-input marker `io.EOF`, which the engine does not treat as an error, is not
represented.) -/
structure Iterator where
  input : List Token
  Error : Option String

/-- The engine's `Iterator.ReportError`: records `operation: msg` unless an error is
already recorded (the byte-offset context the engine appends to the message is left
out). -/
def Iterator.ReportError (iter : Iterator) (operation msg : String) : Iterator :=
  match iter.Error with
  | some _ => iter
  | none => { iter with Error := some (operation ++ ": " ++ msg) }

/-- The engine's `Iterator.WhatIsNext`: the value type of the next token, without
consuming it; `InvalidValue` at the end of the input. -/
def Iterator.WhatIsNext (iter : Iterator) : ValueType :=
  match iter.input with
  | [] => .InvalidValue
  | t :: _ => t.valueType

/-- The engine's `Iterator.ReadNil`: consumes a `null` literal and returns `true`;
otherwise consumes nothing and returns `false`. -/
def Iterator.ReadNil (iter : Iterator) : Bool × Iterator :=
  match iter.input with
  | .null :: rest => (true, { iter with input := rest })
  | _ => (false, iter)

/-- The engine's `Iterator.ReadString`: consumes a string token and returns its content;
a `null` literal reads as the empty string; anything else is an error and reads as
the empty string. -/
def Iterator.ReadString (iter : Iterator) : String × Iterator :=
  match iter.input with
  | .string s :: rest => (s, { iter with input := rest })
  | .null :: rest => ("", { iter with input := rest })
  | _ => ("", iter.ReportError "ReadString" "expects \" or n")

/-- The engine's `Iterator.ReadFloat64`: consumes a number token. `parse` is the
engine's number parser on the literal text: the value it returns and the error it
reports, if any (on a malformed literal). -/
def Iterator.ReadFloat64 (parse : String → float64 × Option String) (iter : Iterator) :
    float64 × Iterator :=
  match iter.input with
  | .number lit :: rest =>
    match parse lit with
    | (f, none) => (f, { iter with input := rest })
    | (f, some e) =>
      (f, { input := rest, Error := match iter.Error with
                                    | some e0 => some e0
                                    | none => some e })
  | _ => (float64.zero, iter.ReportError "readFloat64" "invalid number")

/-- The engine's `Stream`: the tokens written so far and the stream's error. -/
structure Stream where
  buf : List Token
  Error : Option String

/-- The engine's `Stream.WriteNil`: writes the `null` literal. -/
def Stream.WriteNil (stream : Stream) : Stream :=
  { stream with buf := stream.buf ++ [Token.null] }

/-- The engine's `Stream.WriteString`: writes `s` as a quoted string. -/
def Stream.WriteString (stream : Stream) (s : String) : Stream :=
  { stream with buf := stream.buf ++ [Token.string s] }

/-- The engine's `Stream.WriteFloat64`: an infinity or a NaN sets the stream error and
writes nothing; a finite value is written as the bare number literal `format val`,
where `format` is the engine's number formatter. -/
def Stream.WriteFloat64 (format : float64 → String) (stream : Stream) (val : float64) :
    Stream :=
  if math.IsInf val 0 || math.IsNaN val then
    { stream with Error := some "unsupported value" }
  else
    { stream with buf := stream.buf ++ [Token.number (format val)] }

/-! ## `json.go` -/

/-- The function `decode` of `json.go`: dispatch on the next token's value type. -/
def decode (parse : String → float64 × Option String) (iter : Iterator) :
    Float × Iterator :=
  match iter.WhatIsNext with
  | .NilValue =>
    let r := iter.ReadNil
    (Float.zeroValue, r.2)
  | .NumberValue =>
    let r := iter.ReadFloat64 parse
    (FloatFrom r.1, r.2)
  | .StringValue =>
    let r := iter.ReadString
    if r.1 = "+Inf" then (FloatFrom (math.Inf 1), r.2)
    else if r.1 = "-Inf" then (FloatFrom (math.Inf (-1)), r.2)
    else if r.1 = "NaN" then (FloatFrom math.NaN, r.2)
    else
      (Float.zeroValue,
        r.2.ReportError "fuzzyFloat64Decoder" "not number \"NaN\", \"+Inf\", or \"-Inf\"")
  | _ => (Float.zeroValue, iter.ReportError "fuzzyFloat64Decoder" "not number or string")

/-- The function `encode` of `json.go`. -/
def encode (format : float64 → String) (val : Float) (stream : Stream) : Stream :=
  if val.Valid then
    let fval := val.Float64
    if math.IsNaN fval then stream.WriteString "NaN"
    else if math.IsInf fval 1 then stream.WriteString "+Inf"
    else if math.IsInf fval (-1) then stream.WriteString "-Inf"
    else stream.WriteFloat64 format fval
  else
    stream.WriteNil

/-- The method `nullFloatEncDec.Encode`: encodes the `Float` behind the pointer. -/
def nullFloatEncDec.Encode (format : float64 → String) (ptr : Float) (stream : Stream) :
    Stream :=
  encode format ptr stream

/-- The method `nullFloatEncDec.Decode`: stores the result of `decode` in the `Float`
behind the pointer; returns the new content of the target and the iterator. -/
def nullFloatEncDec.Decode (parse : String → float64 × Option String) (_ptr : Float)
    (iter : Iterator) : Float × Iterator :=
  let r := decode parse iter
  (r.1, r.2)

/-- The method `floatEncDec.Encode`: encodes the raw `float64` behind the pointer as
`FloatFrom` of it. -/
def floatEncDec.Encode (format : float64 → String) (ptr : float64) (stream : Stream) :
    Stream :=
  encode format (FloatFrom ptr) stream

/-- The method `floatEncDec.Decode`: stores the `Float64` field of the result of
`decode` in the raw `float64` behind the pointer. -/
def floatEncDec.Decode (parse : String → float64 × Option String) (_ptr : float64)
    (iter : Iterator) : float64 × Iterator :=
  let r := decode parse iter
  (r.1.Float64, r.2)

/-! ## Sample number literals

A few values of the engine's number formatter and parser, for evaluating the codec on
concrete inputs. -/

/-- The float64 `10.0` (bits `0x4024000000000000`). -/
def f64_10 : float64 := ⟨false, 1026, 1125899906842624⟩

/-- The float64 `1.2345` (bits `0x3FF3C083126E978D`). -/
def f64_1_2345 : float64 := ⟨false, 1023, 1056094112618381⟩

/-- The float64 `-0.0` (bits `0x8000000000000000`). -/
def f64_negZero : float64 := ⟨true, 0, 0⟩

/-- The engine's number formatter on the sample values `10.0`, `1.2345` and `0`
(any other value is given the literal of `0` here). -/
def sampleFormat (f : float64) : String :=
  if f = f64_10 then "10"
  else if f = f64_1_2345 then "1.2345"
  else "0"

/-- The engine's number parser on the sample literals `10`, `1.2345` and `0`; every
other literal, such as the lone minus sign `-`, is taken as malformed: the engine
reports an error and returns the negated zero of its failed read. -/
def sampleParse (lit : String) : float64 × Option String :=
  if lit = "10" then (f64_10, none)
  else if lit = "1.2345" then (f64_1_2345, none)
  else if lit = "0" then (float64.zero, none)
  else (f64_negZero, some "readNumberAsString: invalid number")

/-- The record shape of §4.2 item 4 for the float kind, `{"Float64": number, "Valid": bool}`: an object of
exactly these two fields, in either order. -/
def isFloatRecord : Token → Bool
  | .object [(k1, .number _), (k2, .bool _)] => k1 == "Float64" && k2 == "Valid"
  | .object [(k1, .bool _), (k2, .number _)] => k1 == "Valid" && k2 == "Float64"
  | _ => false

/-- The tokens on which, by the wording of the spec, the float decode itself reports an
error: a boolean, an array, an object not of the record shape, and a string that is
none of the three sentinels. -/
def specErrorToken : Token → Bool
  | .bool _ => true
  | .array _ => true
  | .object fields => !isFloatRecord (.object fields)
  | .string s => s != "+Inf" && s != "-Inf" && s != "NaN"
  | _ => false

/-- The record token `{"Float64":1.2345,"Valid":true}`. -/
def recordToken : Token :=
  .object [("Float64", .number "1.2345"), ("Valid", .bool true)]

/-- The round trip of one value through the codec: `encode` into an empty stream, then
`decode` from an iterator over what was written. -/
def roundTrip (format : float64 → String) (parse : String → float64 × Option String)
    (v : Float) : Float × Iterator :=
  decode parse ⟨(encode format v ⟨[], none⟩).buf, none⟩

/-! ## The nullable values of `float.go` and `int.go`

Neither file is among the sources; what the test files call is modelled from the spec. -/

/-- Go `==` on `float64`: a NaN equals nothing, the two zeros are equal, any other two
values are equal when their bits are. -/
def float64.eq (a b : float64) : Bool :=
  !math.IsNaN a && !math.IsNaN b &&
    (a == b || (a.exp == 0 && a.frac == 0 && b.exp == 0 && b.frac == 0))

/-- Go's native `float64` arithmetic, a parameter of the model. -/
structure FloatArith where
  add : float64 → float64 → float64
  sub : float64 → float64 → float64
  mul : float64 → float64 → float64
  div : float64 → float64 → float64

/-- A Go `int64`: an integer of the range `-2^63 .. 2^63 - 1`. -/
abbrev int64 : Type := ℤ

/-- Two's-complement wrap-around of an integer into the `int64` range. -/
def int64.wrap (x : ℤ) : int64 :=
  (x + 9223372036854775808) % 18446744073709551616 - 9223372036854775808

/-- Go's native `int64` division: truncated, wrapping at `MinInt64 / -1`; `none` is the
run-time panic of a zero divisor. -/
def int64.div (a b : int64) : Option int64 :=
  if b = 0 then none else some (int64.wrap (Int.tdiv a b))

/-- Modelled from the spec: the nullable integer type `Int` of `int.go`, which is not
among the sources; §3 gives it as the pair `{ value, valid }`, and its own structured
form `{"Int64": number, "Valid": bool}` gives the field names. -/
structure Int where
  Int64 : int64
  Valid : Bool
  deriving DecidableEq, Repr

/-- The Go zero value `Int{}`: value `0`, not valid. -/
def Int.zeroValue : Int := ⟨0, false⟩

/-- Modelled from the spec: the constructor `NewInt` of `int.go`, which is not among the
sources; §4.1 `New(value, valid)` gives the exact pair as given. -/
def NewInt (i : int64) (valid : Bool) : Int := ⟨i, valid⟩

/-- Modelled from the spec: the constructor `IntFrom` of `int.go`, which is not among the
sources; §4.1 `From(value)` is always valid. -/
def IntFrom (i : int64) : Int := NewInt i true

/-- Modelled from the spec: the method `Float.ValueOrZero` of `float.go`, which is not
among the sources; §4.1: the value if valid, else the kind's zero. -/
def Float.ValueOrZero (f : Float) : float64 :=
  if f.Valid then f.Float64 else float64.zero

/-- Modelled from the spec: the method `Int.ValueOrZero` of `int.go`, which is not among
the sources; §4.1: the value if valid, else the kind's zero. -/
def Int.ValueOrZero (i : Int) : int64 :=
  if i.Valid then i.Int64 else 0

/-- Modelled from the spec: the method `Float.IsZero` of `float.go`, which is not among
the sources; §4.1: "true iff NOT valid, OR (valid AND value == zero)", with Go `==` on
the value. -/
def Float.IsZero (f : Float) : Bool :=
  !f.Valid || (f.Valid && float64.eq f.Float64 float64.zero)

/-- Modelled from the spec: the method `Int.IsZero` of `int.go`, which is not among the
sources; §4.1: "true iff NOT valid, OR (valid AND value == zero)". -/
def Int.IsZero (i : Int) : Bool :=
  !i.Valid || (i.Valid && i.Int64 == 0)

/-- Modelled from the spec: the method `Float.Plus` of `float.go`, which is not among the
sources; §4.5: invalid (zero value) if either operand is invalid, else the native sum. -/
def Float.Plus (ar : FloatArith) (f other : Float) : Float :=
  if !f.Valid || !other.Valid then Float.zeroValue
  else NewFloat (ar.add f.Float64 other.Float64) true

/-- Modelled from the spec: the method `Float.Minus` of `float.go`, which is not among
the sources; §4.5: invalid (zero value) if either operand is invalid, else the native
difference. -/
def Float.Minus (ar : FloatArith) (f other : Float) : Float :=
  if !f.Valid || !other.Valid then Float.zeroValue
  else NewFloat (ar.sub f.Float64 other.Float64) true

/-- Modelled from the spec: the method `Float.Times` of `float.go`, which is not among
the sources; §4.5: invalid (zero value) if either operand is invalid, else the native
product. -/
def Float.Times (ar : FloatArith) (f other : Float) : Float :=
  if !f.Valid || !other.Valid then Float.zeroValue
  else NewFloat (ar.mul f.Float64 other.Float64) true

/-- Modelled from the spec: the method `Float.DividedBy` of `float.go`, which is not
among the sources; §4.5: invalid (zero value) if either operand is invalid, else the
native quotient, a zero divisor included (float division does not fail). -/
def Float.DividedBy (ar : FloatArith) (f other : Float) : Float :=
  if !f.Valid || !other.Valid then Float.zeroValue
  else NewFloat (ar.div f.Float64 other.Float64) true

/-- Modelled from the spec: the method `Int.Plus` of `int.go`, which is not among the
sources; §4.5: invalid (zero value) if either operand is invalid, else the native
(wrapping) sum. -/
def Int.Plus (i other : Int) : Int :=
  if !i.Valid || !other.Valid then Int.zeroValue
  else NewInt (int64.wrap (i.Int64 + other.Int64)) true

/-- Modelled from the spec: the method `Int.Minus` of `int.go`, which is not among the
sources; §4.5: invalid (zero value) if either operand is invalid, else the native
(wrapping) difference. -/
def Int.Minus (i other : Int) : Int :=
  if !i.Valid || !other.Valid then Int.zeroValue
  else NewInt (int64.wrap (i.Int64 - other.Int64)) true

/-- Modelled from the spec: the method `Int.Times` of `int.go`, which is not among the
sources; §4.5: invalid (zero value) if either operand is invalid, else the native
(wrapping) product. -/
def Int.Times (i other : Int) : Int :=
  if !i.Valid || !other.Valid then Int.zeroValue
  else NewInt (int64.wrap (i.Int64 * other.Int64)) true

/-- Modelled from the spec: the method `Int.DividedBy` of `int.go`, which is not among
the sources; §4.5 and §7: invalid if either operand is invalid; a valid zero divisor is
guarded and gives an invalid result; otherwise the native quotient. The result is
`none` when the native division panics. -/
def Int.DividedBy (i other : Int) : Option Int :=
  if !i.Valid || !other.Valid then some Int.zeroValue
  else if other.Int64 = 0 then some Int.zeroValue
  else
    match int64.div i.Int64 other.Int64 with
    | some q => some (NewInt q true)
    | none => none

/-! ## Direct marshaling and integer decoding, from the spec -/

/-- The error kinds of §7. -/
inductive ErrorKind where
  | SyntaxError
  | TypeMismatch
  | FormatError
  | RangeError
  deriving DecidableEq, Repr

/-- Modelled from the spec: the method `Float.MarshalJSON` of `float.go`, which is not
among the sources; §4.2: `null` if not valid; a valid NaN or infinity is a `RangeError`
on this path (no sentinel); otherwise the bare number literal. -/
def Float.MarshalJSON (format : float64 → String) (f : Float) : Except ErrorKind Token :=
  if !f.Valid then .ok Token.null
  else if math.IsInf f.Float64 0 || math.IsNaN f.Float64 then .error .RangeError
  else .ok (Token.number (format f.Float64))

/-- The positional value of a run of decimal digit characters, most significant
first. -/
def decimalValue (ds : List Char) : Nat :=
  ds.foldl (fun acc c => 10 * acc + (c.toNat - 48)) 0

/-- The signed 64-bit range check of §4.2: a value outside `-2^63 .. 2^63 - 1` is a
`RangeError`, never wrapped or truncated. -/
def int64.checkRange (v : ℤ) : Except ErrorKind int64 :=
  if -9223372036854775808 ≤ v ∧ v ≤ 9223372036854775807 then .ok v else .error .RangeError

/-- Modelled from the spec: how `Int.UnmarshalJSON` of `int.go` (not among the sources)
reads a bare number literal, §4.2 item 2 and "Integer overflow": an optional minus sign
and decimal digits parse as an integer, checked against the signed 64-bit range; a
number with a fractional part or an exponent is a `TypeMismatch`; any other text is a
`SyntaxError`. -/
def Int.parseLiteral (lit : String) : Except ErrorKind int64 :=
  let neg := match lit.data with
    | '-' :: _ => true
    | _ => false
  let ds := match lit.data with
    | '-' :: r => r
    | cs => cs
  if ds.isEmpty then .error .SyntaxError
  else if ds.all Char.isDigit then
    int64.checkRange (if neg then -(decimalValue ds : ℤ) else (decimalValue ds : ℤ))
  else if ds.all (fun c => c.isDigit || c == '.' || c == 'e' || c == 'E' || c == '+' ||
      c == '-') then .error .TypeMismatch
  else .error .SyntaxError

/-- Modelled from the spec: how `Int.UnmarshalJSON` of `int.go` (not among the sources)
reads the content of a non-empty string, §4.2 item 3: only decimal digits, optionally
signed, parse as an integer (range-checked); anything else is a `FormatError`. -/
def Int.parseString (s : String) : Except ErrorKind int64 :=
  let neg := match s.data with
    | '-' :: _ => true
    | _ => false
  let ds := match s.data with
    | '-' :: r => r
    | '+' :: r => r
    | cs => cs
  if !ds.isEmpty && ds.all Char.isDigit then
    int64.checkRange (if neg then -(decimalValue ds : ℤ) else (decimalValue ds : ℤ))
  else .error .FormatError

/-- Modelled from the spec: the method `Int.UnmarshalJSON` of `int.go`, which is not
among the sources; §4.2 items 1 to 6 for the integer kind. The result is the new state
of the receiver and the error returned; on an error the state is zero/invalid (§7). -/
def Int.UnmarshalJSON (data : Token) : Int × Option ErrorKind :=
  match data with
  | .null => (Int.zeroValue, none)
  | .number lit =>
    match Int.parseLiteral lit with
    | .ok v => (NewInt v true, none)
    | .error e => (Int.zeroValue, some e)
  | .string s =>
    if s = "" then (Int.zeroValue, none)
    else
      match Int.parseString s with
      | .ok v => (NewInt v true, none)
      | .error e => (Int.zeroValue, some e)
  | .object [(k1, .number lit), (k2, .bool b)] =>
    if k1 = "Int64" ∧ k2 = "Valid" then
      match Int.parseLiteral lit with
      | .ok v => (NewInt v b, none)
      | .error e => (Int.zeroValue, some e)
    else (Int.zeroValue, some .TypeMismatch)
  | .invalid => (Int.zeroValue, some .SyntaxError)
  | _ => (Int.zeroValue, some .TypeMismatch)

/-! ## The tests of `float_test.go` and `int_test.go`

Each test is the conjunction of its assertions: `true` when no `t.Error` fires and
nothing panics. -/

/-- The float64 `5.2` (bits `0x4014CCCCCCCCCCCD`). -/
def f64_5_2 : float64 := ⟨false, 1025, 1351079888211149⟩

/-- The float64 `6.4345` (bits `0x4019BCED916872B0`). -/
def f64_6_4345 : float64 := ⟨false, 1025, 2741003323208368⟩

/-- The float64 `4.0` (bits `0x4010000000000000`). -/
def f64_4 : float64 := ⟨false, 1025, 0⟩

/-- The float64 `2.5` (bits `0x4004000000000000`). -/
def f64_2_5 : float64 := ⟨false, 1024, 1125899906842624⟩

/-- The float64 `0.4` (bits `0x3FD999999999999A`). -/
def f64_0_4 : float64 := ⟨false, 1021, 2702159776422298⟩

/-- Go's float64 arithmetic on the operands the tests use: `1.2345 + 5.2 = 6.4345` (both
orders), `10 / 4 = 2.5`, `4 / 10 = 0.4`, `10 / 0 = +Inf`; any other operation is given
the result `0` here. -/
def sampleArith : FloatArith where
  add a b :=
    if (a = f64_1_2345 ∧ b = f64_5_2) ∨ (a = f64_5_2 ∧ b = f64_1_2345) then f64_6_4345
    else float64.zero
  sub _ _ := float64.zero
  mul _ _ := float64.zero
  div a b :=
    if a = f64_10 ∧ b = f64_4 then f64_2_5
    else if a = f64_4 ∧ b = f64_10 then f64_0_4
    else if a = f64_10 ∧ b = float64.zero then math.Inf 1
    else float64.zero

/-- The test `TestFloatIsZero` of `float_test.go`, run on an implementation of
`Float.IsZero`. -/
def TestFloatIsZero (IsZero : Float → Bool) : Bool :=
  !IsZero (FloatFrom f64_1_2345) &&
  IsZero (NewFloat float64.zero false) &&
  !IsZero (NewFloat float64.zero true)

/-- The test `TestIntIsZero` of `int_test.go`, run on an implementation of
`Int.IsZero`. -/
def TestIntIsZero (IsZero : Int → Bool) : Bool :=
  !IsZero (IntFrom 12345) &&
  IsZero (NewInt 0 false) &&
  !IsZero (NewInt 0 true)

/-- The test `TestFloatValueOrZero` of `float_test.go`. -/
def TestFloatValueOrZero : Bool :=
  float64.eq (NewFloat f64_1_2345 true).ValueOrZero f64_1_2345 &&
  float64.eq (NewFloat f64_1_2345 false).ValueOrZero float64.zero

/-- The test `TestIntValueOrZero` of `int_test.go`. -/
def TestIntValueOrZero : Bool :=
  (NewInt 12345 true).ValueOrZero == 12345 &&
  (NewInt 12345 false).ValueOrZero == 0

/-- The test `TestFloatPlus` of `float_test.go`. -/
def TestFloatPlus (ar : FloatArith) : Bool :=
  let a := NewFloat f64_1_2345 true
  let b := NewFloat f64_5_2 true
  let c := NewFloat float64.zero false
  float64.eq (a.Plus ar b).ValueOrZero f64_6_4345 &&
  float64.eq (b.Plus ar a).ValueOrZero f64_6_4345 &&
  !(a.Plus ar c).Valid &&
  !(c.Plus ar a).Valid &&
  !(c.Plus ar c).Valid

/-- The test `TestFloatDividedBy` of `float_test.go`; its last assertion compares two
`Float` structs with Go `==`, field by field. -/
def TestFloatDividedBy (ar : FloatArith) : Bool :=
  let a := NewFloat f64_10 true
  let b := NewFloat f64_4 true
  let c := NewFloat float64.zero false
  let d := NewFloat float64.zero true
  float64.eq (a.DividedBy ar b).ValueOrZero f64_2_5 &&
  float64.eq (b.DividedBy ar a).ValueOrZero f64_0_4 &&
  !(a.DividedBy ar c).Valid &&
  !(c.DividedBy ar c).Valid &&
  !(c.DividedBy ar a).Valid &&
  (float64.eq (a.DividedBy ar d).Float64 (FloatFrom (math.Inf 1)).Float64 &&
    (a.DividedBy ar d).Valid == (FloatFrom (math.Inf 1)).Valid)

/-- An assertion on the result of a call that may panic: a panic fails the test. -/
def returns (r : Option Int) (p : Int → Bool) : Bool :=
  match r with
  | some x => p x
  | none => false

/-- The test `TestIntDividedBy` of `int_test.go`. -/
def TestIntDividedBy : Bool :=
  let a := NewInt 1 true
  let b := NewInt 5 true
  let c := NewInt 0 false
  let d := NewInt 0 true
  returns (a.DividedBy b) (fun r => r.ValueOrZero == 0) &&
  returns (b.DividedBy a) (fun r => r.ValueOrZero == 5) &&
  returns (a.DividedBy c) (fun r => !r.Valid) &&
  returns (c.DividedBy c) (fun r => !r.Valid) &&
  returns (c.DividedBy a) (fun r => !r.Valid) &&
  returns (a.DividedBy d) (fun r => !r.Valid)

/-- The test `TestIntTimes` of `int_test.go`. -/
def TestIntTimes : Bool :=
  let a := NewInt 2 true
  let b := NewInt 5 true
  let c := NewInt 0 false
  let d := NewInt 0 true
  (a.Times b).ValueOrZero == 10 &&
  (b.Times a).ValueOrZero == 10 &&
  !(a.Times c).Valid &&
  !(c.Times a).Valid &&
  !(c.Times c).Valid &&
  (a.Times d).Valid &&
  (a.Times d).ValueOrZero == 0

/-- The digits of `n` in base ten, most significant first, put in front of `acc`; `fuel`
bounds the number of digits. -/
def formatUintAux : Nat → Nat → List Char → List Char
  | 0, _, acc => acc
  | fuel + 1, n, acc =>
    if n < 10 then Nat.digitChar n :: acc
    else formatUintAux fuel (n / 10) (Nat.digitChar (n % 10) :: acc)

/-- Go `strconv.FormatUint(n, 10)`: the decimal literal of `n`. -/
def FormatUint (n : Nat) : String :=
  String.mk (formatUintAux (n + 1) n [])

/-- The test `TestUnmarshalInt64Overflow` of `int_test.go`: `math.MaxInt64` written in
decimal decodes without error, the next integer does not. -/
def TestUnmarshalInt64Overflow : Bool :=
  let int64Overflow : Nat := 9223372036854775807
  (Int.UnmarshalJSON (Token.number (FormatUint int64Overflow))).2.isNone &&
  (Int.UnmarshalJSON (Token.number (FormatUint (int64Overflow + 1)))).2.isSome

/-- The test `TestMarshalFloat` of `float_test.go`: `json.Marshal` calls `MarshalJSON`;
the valid `1.2345` is marshalled as the number `1.2345`, the invalid zero as `null`. -/
def TestMarshalFloat (format : float64 → String) : Bool :=
  (match Float.MarshalJSON format (FloatFrom f64_1_2345) with
    | .ok (.number lit) => lit == "1.2345"
    | _ => false) &&
  (match Float.MarshalJSON format (NewFloat float64.zero false) with
    | .ok .null => true
    | _ => false)

/-- The test `TestFloatInfNaN` of `float_test.go`. -/
def TestFloatInfNaN (format : float64 → String) : Bool :=
  (match Float.MarshalJSON format (NewFloat math.NaN true) with
    | .error _ => true
    | .ok _ => false) &&
  (match Float.MarshalJSON format (NewFloat (math.Inf 1) true) with
    | .error _ => true
    | .ok _ => false)

/-! ## Classification lemmas -/

theorem isInf_zero_iff (f : float64) :
    math.IsInf f 0 = (math.IsInf f 1 || math.IsInf f (-1)) := by
  cases hs : f.sign <;> simp [math.IsInf, hs]

theorem isNaN_not_isInf (f : float64) (h : math.IsNaN f = true) (sign : ℤ) :
    math.IsInf f sign = false := by
  simp only [math.IsNaN, Bool.and_eq_true, beq_iff_eq, bne_iff_ne] at h
  simp [math.IsInf, h.1, h.2]

theorem isInf_pos_eq (f : float64) (h : math.IsInf f 1 = true) : f = math.Inf 1 := by
  obtain ⟨s, e, m⟩ := f
  simp [math.IsInf] at h
  simp [math.Inf, h]

theorem isInf_neg_eq (f : float64) (h : math.IsInf f (-1) = true) : f = math.Inf (-1) := by
  obtain ⟨s, e, m⟩ := f
  simp [math.IsInf] at h
  simp [math.Inf, h]

theorem writeFloat64_finite (format : float64 → String) (stream : Stream) (f : float64)
    (hn : math.IsNaN f = false) (hp : math.IsInf f 1 = false)
    (hm : math.IsInf f (-1) = false) :
    stream.WriteFloat64 format f =
      { stream with buf := stream.buf ++ [Token.number (format f)] } := by
  simp [Stream.WriteFloat64, isInf_zero_iff, hn, hp, hm]

/-! ## Encoding -/

theorem encode_nan (format : float64 → String) (v : Float) (stream : Stream)
    (hv : v.Valid = true) (h : math.IsNaN v.Float64 = true) :
    encode format v stream = { stream with buf := stream.buf ++ [Token.string "NaN"] } := by
  simp [encode, hv, h, Stream.WriteString]

theorem encode_posInf (format : float64 → String) (v : Float) (stream : Stream)
    (hv : v.Valid = true) (h : math.IsInf v.Float64 1 = true) :
    encode format v stream = { stream with buf := stream.buf ++ [Token.string "+Inf"] } := by
  have hn : math.IsNaN v.Float64 = false := by
    cases hc : math.IsNaN v.Float64
    · rfl
    · rw [isNaN_not_isInf _ hc] at h; cases h
  simp [encode, hv, h, hn, Stream.WriteString]

theorem encode_negInf (format : float64 → String) (v : Float) (stream : Stream)
    (hv : v.Valid = true) (h : math.IsInf v.Float64 (-1) = true) :
    encode format v stream = { stream with buf := stream.buf ++ [Token.string "-Inf"] } := by
  have hn : math.IsNaN v.Float64 = false := by
    cases hc : math.IsNaN v.Float64
    · rfl
    · rw [isNaN_not_isInf _ hc] at h; cases h
  have hp : math.IsInf v.Float64 1 = false := by
    rw [isInf_neg_eq _ h]; rfl
  simp [encode, hv, h, hn, hp, Stream.WriteString]

theorem encode_finite (format : float64 → String) (v : Float) (stream : Stream)
    (hv : v.Valid = true) (hn : math.IsNaN v.Float64 = false)
    (hp : math.IsInf v.Float64 1 = false) (hm : math.IsInf v.Float64 (-1) = false) :
    encode format v stream =
      { stream with buf := stream.buf ++ [Token.number (format v.Float64)] } := by
  simp [encode, hv, hn, hp, hm, writeFloat64_finite]

theorem encode_invalid (format : float64 → String) (v : Float) (stream : Stream)
    (hv : v.Valid = false) :
    encode format v stream = { stream with buf := stream.buf ++ [Token.null] } := by
  simp [encode, hv, Stream.WriteNil]

/-- C1: for a valid `Float`, `encode` appends exactly one token to the stream and leaves
the stream error alone; the token is the string `"NaN"` for a NaN, `"+Inf"` for positive
infinity, `"-Inf"` for negative infinity, and for every other (finite) value the bare
number literal the engine formats for it, never `null` and never a string. -/
theorem encode_valid_one_token (format : float64 → String) (v : Float) (stream : Stream)
    (hv : v.Valid = true) :
    (math.IsNaN v.Float64 = true →
      encode format v stream = { stream with buf := stream.buf ++ [Token.string "NaN"] }) ∧
    (math.IsInf v.Float64 1 = true →
      encode format v stream = { stream with buf := stream.buf ++ [Token.string "+Inf"] }) ∧
    (math.IsInf v.Float64 (-1) = true →
      encode format v stream = { stream with buf := stream.buf ++ [Token.string "-Inf"] }) ∧
    (math.IsNaN v.Float64 = false → math.IsInf v.Float64 1 = false →
      math.IsInf v.Float64 (-1) = false →
      encode format v stream =
        { stream with buf := stream.buf ++ [Token.number (format v.Float64)] }) :=
  ⟨encode_nan format v stream hv, encode_posInf format v stream hv,
   encode_negInf format v stream hv, encode_finite format v stream hv⟩

/-- C1, on concrete inputs: a valid `0` is written as the number literal `0`, a valid NaN
as the string `"NaN"`. -/
theorem encode_valid_one_token_witness :
    (FloatFrom float64.zero).Valid = true ∧
    encode sampleFormat (FloatFrom float64.zero) ⟨[], none⟩ = ⟨[Token.number "0"], none⟩ ∧
    encode sampleFormat (FloatFrom math.NaN) ⟨[], none⟩ = ⟨[Token.string "NaN"], none⟩ :=
  ⟨rfl,
   (encode_valid_one_token sampleFormat (FloatFrom float64.zero) ⟨[], none⟩ rfl).2.2.2
     rfl rfl rfl,
   (encode_valid_one_token sampleFormat (FloatFrom math.NaN) ⟨[], none⟩ rfl).1 rfl⟩

/-- C4: for a `Float` that is not valid, whatever its `Float64` holds, `encode` appends
exactly the `null` literal to the stream and nothing else. -/
theorem encode_invalid_writes_nil (format : float64 → String) (v : Float) (stream : Stream)
    (hv : v.Valid = false) :
    encode format v stream = { stream with buf := stream.buf ++ [Token.null] } :=
  encode_invalid format v stream hv

/-- C4, on concrete inputs: an invalid `Float` holding NaN, or holding `10.0`, is written
as `null`. -/
theorem encode_invalid_writes_nil_witness :
    (NewFloat math.NaN false).Valid = false ∧
    encode sampleFormat (NewFloat math.NaN false) ⟨[], none⟩ = ⟨[Token.null], none⟩ ∧
    encode sampleFormat (NewFloat f64_10 false) ⟨[], none⟩ = ⟨[Token.null], none⟩ :=
  ⟨rfl, encode_invalid_writes_nil sampleFormat (NewFloat math.NaN false) ⟨[], none⟩ rfl,
   by simp [encode, NewFloat, Stream.WriteNil]⟩

/-! ## Decoding -/

theorem decode_null (parse : String → float64 × Option String) (rest : List Token)
    (err : Option String) :
    decode parse ⟨Token.null :: rest, err⟩ = (Float.zeroValue, ⟨rest, err⟩) := by
  simp [decode, Iterator.WhatIsNext, Token.valueType, Iterator.ReadNil]

theorem decode_number_ok (parse : String → float64 × Option String) (lit : String)
    (f : float64) (rest : List Token) (err : Option String) (h : parse lit = (f, none)) :
    decode parse ⟨Token.number lit :: rest, err⟩ = (FloatFrom f, ⟨rest, err⟩) := by
  simp [decode, Iterator.WhatIsNext, Token.valueType, Iterator.ReadFloat64, h]

theorem decode_string_other (parse : String → float64 × Option String) (s : String)
    (rest : List Token) (err : Option String)
    (hp : s ≠ "+Inf") (hm : s ≠ "-Inf") (hn : s ≠ "NaN") :
    decode parse ⟨Token.string s :: rest, err⟩ =
      (Float.zeroValue,
        Iterator.ReportError ⟨rest, err⟩ "fuzzyFloat64Decoder"
          "not number \"NaN\", \"+Inf\", or \"-Inf\"") := by
  simp [decode, Iterator.WhatIsNext, Token.valueType, Iterator.ReadString, hp, hm, hn]

theorem reportError_isSome (iter : Iterator) (operation msg : String) :
    (iter.ReportError operation msg).Error.isSome = true := by
  unfold Iterator.ReportError
  cases h : iter.Error <;> simp [h]

theorem decode_string_NaN (parse : String → float64 × Option String) (rest : List Token)
    (err : Option String) :
    decode parse ⟨Token.string "NaN" :: rest, err⟩ = (FloatFrom math.NaN, ⟨rest, err⟩) := by
  simp [decode, Iterator.WhatIsNext, Token.valueType, Iterator.ReadString]

theorem decode_string_posInf (parse : String → float64 × Option String) (rest : List Token)
    (err : Option String) :
    decode parse ⟨Token.string "+Inf" :: rest, err⟩ = (FloatFrom (math.Inf 1), ⟨rest, err⟩) := by
  simp [decode, Iterator.WhatIsNext, Token.valueType, Iterator.ReadString]

theorem decode_string_negInf (parse : String → float64 × Option String) (rest : List Token)
    (err : Option String) :
    decode parse ⟨Token.string "-Inf" :: rest, err⟩ =
      (FloatFrom (math.Inf (-1)), ⟨rest, err⟩) := by
  simp [decode, Iterator.WhatIsNext, Token.valueType, Iterator.ReadString]

/-- C2: each of the string tokens `"NaN"`, `"+Inf"`, `"-Inf"` is consumed by `decode`
without an error and gives a valid `Float` whose value is a NaN, positive infinity and
negative infinity respectively. -/
theorem decode_sentinel_strings (parse : String → float64 × Option String)
    (rest : List Token) :
    ((decode parse ⟨Token.string "NaN" :: rest, none⟩).2 = ⟨rest, none⟩ ∧
      (decode parse ⟨Token.string "NaN" :: rest, none⟩).1.Valid = true ∧
      math.IsNaN (decode parse ⟨Token.string "NaN" :: rest, none⟩).1.Float64 = true) ∧
    ((decode parse ⟨Token.string "+Inf" :: rest, none⟩).2 = ⟨rest, none⟩ ∧
      (decode parse ⟨Token.string "+Inf" :: rest, none⟩).1.Valid = true ∧
      math.IsInf (decode parse ⟨Token.string "+Inf" :: rest, none⟩).1.Float64 1 = true) ∧
    ((decode parse ⟨Token.string "-Inf" :: rest, none⟩).2 = ⟨rest, none⟩ ∧
      (decode parse ⟨Token.string "-Inf" :: rest, none⟩).1.Valid = true ∧
      math.IsInf (decode parse ⟨Token.string "-Inf" :: rest, none⟩).1.Float64 (-1) = true) := by
  rw [decode_string_NaN, decode_string_posInf, decode_string_negInf]
  exact ⟨⟨rfl, rfl, rfl⟩, ⟨rfl, rfl, rfl⟩, ⟨rfl, rfl, rfl⟩⟩

/-! ## Round trip -/

/-- C3: round trip through `encode` then `decode`. Given that the engine's parser reads
the literal its formatter writes for `v.Float64` back as `v.Float64` without error (used
only when `v` is valid and finite): a valid `v` that is not a NaN comes back as `v` itself
with no error and the token consumed; a valid NaN comes back as a valid NaN with no
error; an invalid `v` comes back invalid. -/
theorem roundTrip_spec (format : float64 → String) (parse : String → float64 × Option String)
    (v : Float)
    (hrt : v.Valid = true → math.IsNaN v.Float64 = false → math.IsInf v.Float64 0 = false →
      parse (format v.Float64) = (v.Float64, none)) :
    (v.Valid = true → math.IsNaN v.Float64 = false →
      roundTrip format parse v = (v, ⟨[], none⟩)) ∧
    (v.Valid = true → math.IsNaN v.Float64 = true →
      (roundTrip format parse v).2 = ⟨[], none⟩ ∧
      (roundTrip format parse v).1.Valid = true ∧
      math.IsNaN (roundTrip format parse v).1.Float64 = true) ∧
    (v.Valid = false →
      (roundTrip format parse v).2 = ⟨[], none⟩ ∧
      (roundTrip format parse v).1.Valid = false) := by
  obtain ⟨f, valid⟩ := v
  refine ⟨fun hv hn => ?_, fun hv hn => ?_, fun hv => ?_⟩
  · simp only at hv hn hrt
    subst hv
    cases hp : math.IsInf f 1
    · cases hm : math.IsInf f (-1)
      · have h0 : math.IsInf f 0 = false := by rw [isInf_zero_iff, hp, hm]; rfl
        have e := encode_finite format ⟨f, true⟩ ⟨[], none⟩ rfl hn hp hm
        simp only [roundTrip, e, List.nil_append]
        rw [decode_number_ok parse _ f [] none (hrt rfl hn h0)]
        rfl
      · have e := encode_negInf format ⟨f, true⟩ ⟨[], none⟩ rfl hm
        simp only [roundTrip, e, List.nil_append]
        rw [decode_string_negInf, isInf_neg_eq f hm]
        rfl
    · have e := encode_posInf format ⟨f, true⟩ ⟨[], none⟩ rfl hp
      simp only [roundTrip, e, List.nil_append]
      rw [decode_string_posInf, isInf_pos_eq f hp]
      rfl
  · simp only at hv hn
    subst hv
    have e := encode_nan format ⟨f, true⟩ ⟨[], none⟩ rfl hn
    simp only [roundTrip, e, List.nil_append]
    rw [decode_string_NaN]
    exact ⟨rfl, rfl, rfl⟩
  · simp only at hv
    subst hv
    have e := encode_invalid format ⟨f, false⟩ ⟨[], none⟩ rfl
    simp only [roundTrip, e, List.nil_append]
    rw [decode_null]
    exact ⟨rfl, rfl⟩

/-- C3, on concrete inputs: the valid `10.0` (through the sample literal `10`) and the
valid positive infinity come back unchanged, the valid NaN comes back as a valid NaN, the
invalid zero comes back invalid. -/
theorem roundTrip_spec_witness :
    roundTrip sampleFormat sampleParse (FloatFrom f64_10) = (FloatFrom f64_10, ⟨[], none⟩) ∧
    roundTrip sampleFormat sampleParse (FloatFrom (math.Inf 1)) =
      (FloatFrom (math.Inf 1), ⟨[], none⟩) ∧
    ((roundTrip sampleFormat sampleParse (FloatFrom math.NaN)).1.Valid = true ∧
      math.IsNaN (roundTrip sampleFormat sampleParse (FloatFrom math.NaN)).1.Float64 = true) ∧
    (roundTrip sampleFormat sampleParse Float.zeroValue).1.Valid = false :=
  ⟨(roundTrip_spec sampleFormat sampleParse (FloatFrom f64_10) (fun _ _ _ => rfl)).1 rfl rfl,
   (roundTrip_spec sampleFormat sampleParse (FloatFrom (math.Inf 1))
      (fun _ _ h => absurd h (by decide))).1 rfl rfl,
   ((roundTrip_spec sampleFormat sampleParse (FloatFrom math.NaN)
      (fun _ h _ => absurd h (by decide))).2.1 rfl rfl).2,
   ((roundTrip_spec sampleFormat sampleParse Float.zeroValue
      (fun h _ _ => absurd h (by decide))).2.2 rfl).2⟩

/-! ## Decode errors -/

theorem decode_number_err (parse : String → float64 × Option String) (lit : String)
    (f : float64) (e : String) (rest : List Token) (h : parse lit = (f, some e)) :
    decode parse ⟨Token.number lit :: rest, none⟩ = (FloatFrom f, ⟨rest, some e⟩) := by
  simp [decode, Iterator.WhatIsNext, Token.valueType, Iterator.ReadFloat64, h]

theorem decode_other (parse : String → float64 × Option String) (t : Token)
    (rest : List Token) (err : Option String)
    (h : t.valueType = .BoolValue ∨ t.valueType = .ArrayValue ∨ t.valueType = .ObjectValue ∨
      t.valueType = .InvalidValue) :
    decode parse ⟨t :: rest, err⟩ =
      (Float.zeroValue,
        Iterator.ReportError ⟨t :: rest, err⟩ "fuzzyFloat64Decoder" "not number or string") := by
  cases t <;> simp [Token.valueType] at h <;>
    simp [decode, Iterator.WhatIsNext, Token.valueType]

theorem decode_object (parse : String → float64 × Option String)
    (fields : List (String × Token)) (rest : List Token) (err : Option String) :
    decode parse ⟨Token.object fields :: rest, err⟩ =
      (Float.zeroValue,
        Iterator.ReportError ⟨Token.object fields :: rest, err⟩ "fuzzyFloat64Decoder"
          "not number or string") :=
  decode_other parse (Token.object fields) rest err (Or.inr (Or.inr (Or.inl rfl)))

/-- C5: the claim fails on the number path of `decode`. On a number token for which the
engine's parser reports an error, the iterator carries that error, yet `decode` returns
`FloatFrom` of whatever the failed read returned, a valid `Float`, and
`nullFloatEncDec.Decode` stores it in the target: the result is not the invalid zero
value. -/
theorem decode_number_error_leaves_valid (parse : String → float64 × Option String)
    (lit : String) (rest : List Token) (target : Float)
    (h : (parse lit).2.isSome = true) :
    (decode parse ⟨Token.number lit :: rest, none⟩).2.Error.isSome = true ∧
    (decode parse ⟨Token.number lit :: rest, none⟩).1.Valid = true ∧
    (nullFloatEncDec.Decode parse target ⟨Token.number lit :: rest, none⟩).1 ≠
      Float.zeroValue := by
  rcases hp : parse lit with ⟨f, _ | e⟩
  · rw [hp] at h; cases h
  · simp only [nullFloatEncDec.Decode, decode_number_err parse lit f e rest hp]
    refine ⟨rfl, rfl, ?_⟩
    intro hc
    have hv := congrArg Float.Valid hc
    simp [FloatFrom, NewFloat, Float.zeroValue] at hv

/-- C5, on a concrete input: the number token of a lone minus sign. The engine reports an
error and the read returns negative zero; `decode` returns the valid `Float` holding it. -/
theorem decode_number_error_leaves_valid_witness :
    (sampleParse "-").2.isSome = true ∧
    decode sampleParse ⟨[Token.number "-"], none⟩ =
      (NewFloat f64_negZero true, ⟨[], some "readNumberAsString: invalid number"⟩) ∧
    (nullFloatEncDec.Decode sampleParse Float.zeroValue ⟨[Token.number "-"], none⟩).1 ≠
      Float.zeroValue :=
  ⟨by decide, decode_number_err sampleParse "-" f64_negZero _ [] (by decide),
   (decode_number_error_leaves_valid sampleParse "-" [] Float.zeroValue (by decide)).2.2⟩

/-- C6, as stated, fails: on the quoted empty string the fast path does not return the
invalid zero value without an error. -/
theorem decode_blank_string_counterexample :
    ¬ ((decode sampleParse ⟨[Token.string ""], none⟩).1 = Float.zeroValue ∧
       (decode sampleParse ⟨[Token.string ""], none⟩).2.Error = none) := by
  rw [decode_string_other sampleParse "" [] none (by decide) (by decide) (by decide)]
  simp [Iterator.ReportError]

/-- C6, amended: on the quoted empty string the fast path returns the invalid zero value,
consumes the token, and reports the error of an unrecognised string. -/
theorem decode_blank_string (parse : String → float64 × Option String) (rest : List Token) :
    decode parse ⟨Token.string "" :: rest, none⟩ =
      (Float.zeroValue,
        ⟨rest, some "fuzzyFloat64Decoder: not number \"NaN\", \"+Inf\", or \"-Inf\""⟩) := by
  rw [decode_string_other parse "" rest none (by decide) (by decide) (by decide)]
  rfl

/-- C7, as stated, fails: the quoted number `"1.2345"` is not decoded without error to
the valid value `1.2345` that the bare number token gives. -/
theorem decode_quoted_number_counterexample :
    decode sampleParse ⟨[Token.number "1.2345"], none⟩ =
      (FloatFrom f64_1_2345, ⟨[], none⟩) ∧
    ¬ ((decode sampleParse ⟨[Token.string "1.2345"], none⟩).2.Error = none ∧
       (decode sampleParse ⟨[Token.string "1.2345"], none⟩).1 = FloatFrom f64_1_2345) := by
  refine ⟨decode_number_ok sampleParse "1.2345" f64_1_2345 [] none (by decide), ?_⟩
  rw [decode_string_other sampleParse "1.2345" [] none (by decide) (by decide) (by decide)]
  simp [Iterator.ReportError]

/-- C7, amended: a quoted number is rejected by the fast path. For every literal that the
engine's parser reads as a number (and that is none of the three sentinels), the string
token with that content makes `decode` report an error and return the invalid zero value,
while the bare number token decodes without error to the valid parsed value. -/
theorem decode_quoted_number_rejected (parse : String → float64 × Option String)
    (s : String) (f : float64) (rest : List Token)
    (hparse : parse s = (f, none))
    (hp : s ≠ "+Inf") (hm : s ≠ "-Inf") (hn : s ≠ "NaN") :
    decode parse ⟨Token.string s :: rest, none⟩ =
      (Float.zeroValue,
        ⟨rest, some "fuzzyFloat64Decoder: not number \"NaN\", \"+Inf\", or \"-Inf\""⟩) ∧
    decode parse ⟨Token.number s :: rest, none⟩ = (FloatFrom f, ⟨rest, none⟩) := by
  refine ⟨?_, decode_number_ok parse s f rest none hparse⟩
  rw [decode_string_other parse s rest none hp hm hn]
  rfl

/-- C7 amended, on a concrete input: the literal `10`. -/
theorem decode_quoted_number_rejected_witness :
    sampleParse "10" = (f64_10, none) ∧
    decode sampleParse ⟨[Token.string "10"], none⟩ =
      (Float.zeroValue,
        ⟨[], some "fuzzyFloat64Decoder: not number \"NaN\", \"+Inf\", or \"-Inf\""⟩) ∧
    decode sampleParse ⟨[Token.number "10"], none⟩ = (FloatFrom f64_10, ⟨[], none⟩) :=
  ⟨by decide,
   decode_quoted_number_rejected sampleParse "10" f64_10 [] (by decide) (by decide)
     (by decide) (by decide)⟩

/-- C8, as stated, fails: the record token `{"Float64":1.2345,"Valid":true}` is not decoded
without error to the valid value `1.2345`. -/
theorem decode_record_counterexample :
    ¬ ((decode sampleParse ⟨[recordToken], none⟩).2.Error = none ∧
       (decode sampleParse ⟨[recordToken], none⟩).1 = NewFloat f64_1_2345 true) := by
  rw [recordToken, decode_object sampleParse _ [] none]
  simp [Iterator.ReportError]

/-- C8, amended: every object token, of the record shape or not, is rejected by the fast
path: `decode` returns the invalid zero value, consumes nothing, and reports the error
of a token that is neither number nor string. -/
theorem decode_object_rejected (parse : String → float64 × Option String)
    (fields : List (String × Token)) (rest : List Token) :
    decode parse ⟨Token.object fields :: rest, none⟩ =
      (Float.zeroValue,
        ⟨Token.object fields :: rest, some "fuzzyFloat64Decoder: not number or string"⟩) := by
  rw [decode_object parse fields rest none]
  rfl

/-- C9: a string token whose content is neither empty nor exactly `"NaN"`, `"+Inf"` or
`"-Inf"` makes `decode` report an error (whatever the iterator held before) and return
the invalid zero value. -/
theorem decode_unrecognised_string (parse : String → float64 × Option String) (s : String)
    (rest : List Token) (err : Option String)
    (_hne : s ≠ "") (hn : s ≠ "NaN") (hp : s ≠ "+Inf") (hm : s ≠ "-Inf") :
    (decode parse ⟨Token.string s :: rest, err⟩).1 = Float.zeroValue ∧
    (decode parse ⟨Token.string s :: rest, err⟩).2.Error.isSome = true ∧
    (decode parse ⟨Token.string s :: rest, none⟩).2.Error =
      some "fuzzyFloat64Decoder: not number \"NaN\", \"+Inf\", or \"-Inf\"" := by
  rw [decode_string_other parse s rest err hp hm hn,
    decode_string_other parse s rest none hp hm hn]
  exact ⟨rfl, reportError_isSome _ _ _, rfl⟩

/-- C9, on concrete inputs: the match is exact and case-sensitive, so `"nan"`, `"Inf"`,
`"Infinity"` and `"+inf"` are all rejected. -/
theorem decode_unrecognised_string_witness :
    ((decode sampleParse ⟨[Token.string "nan"], none⟩).1 = Float.zeroValue ∧
      (decode sampleParse ⟨[Token.string "nan"], none⟩).2.Error.isSome = true) ∧
    ((decode sampleParse ⟨[Token.string "Inf"], none⟩).1 = Float.zeroValue ∧
      (decode sampleParse ⟨[Token.string "Inf"], none⟩).2.Error.isSome = true) ∧
    ((decode sampleParse ⟨[Token.string "Infinity"], none⟩).1 = Float.zeroValue ∧
      (decode sampleParse ⟨[Token.string "Infinity"], none⟩).2.Error.isSome = true) ∧
    ((decode sampleParse ⟨[Token.string "+inf"], none⟩).1 = Float.zeroValue ∧
      (decode sampleParse ⟨[Token.string "+inf"], none⟩).2.Error.isSome = true) :=
  ⟨⟨(decode_unrecognised_string sampleParse "nan" [] none (by decide) (by decide)
      (by decide) (by decide)).1,
    (decode_unrecognised_string sampleParse "nan" [] none (by decide) (by decide)
      (by decide) (by decide)).2.1⟩,
   ⟨(decode_unrecognised_string sampleParse "Inf" [] none (by decide) (by decide)
      (by decide) (by decide)).1,
    (decode_unrecognised_string sampleParse "Inf" [] none (by decide) (by decide)
      (by decide) (by decide)).2.1⟩,
   ⟨(decode_unrecognised_string sampleParse "Infinity" [] none (by decide) (by decide)
      (by decide) (by decide)).1,
    (decode_unrecognised_string sampleParse "Infinity" [] none (by decide) (by decide)
      (by decide) (by decide)).2.1⟩,
   ⟨(decode_unrecognised_string sampleParse "+inf" [] none (by decide) (by decide)
      (by decide) (by decide)).1,
    (decode_unrecognised_string sampleParse "+inf" [] none (by decide) (by decide)
      (by decide) (by decide)).2.1⟩⟩

/-- C10, as stated, fails in its "only" part: the object `{"Float64":10,"Valid":false}` is
of the record shape, so it is none of the tokens the claim lists, and yet `decode` itself
reports an error on it. -/
theorem decode_error_only_counterexample :
    ¬ ((decode sampleParse
          ⟨[Token.object [("Float64", .number "10"), ("Valid", .bool false)]], none⟩).2.Error.isSome
          = true →
        specErrorToken (Token.object [("Float64", .number "10"), ("Valid", .bool false)])
          = true) := by
  rw [decode_object sampleParse _ [] none]
  simp [Iterator.ReportError, specErrorToken, isFloatRecord]

/-- C10, amended: on a token that is a boolean, an array, an object of any shape (the
record shape included) or no JSON value at all, `decode` reports an error, consumes
nothing and returns the invalid zero value; and, from an error-free iterator, an error
is present after `decode` exactly for those tokens, for a string other than the three
sentinels, and for a number token on which the engine's parser reports an error: never
for `null`, a number that parses, or a sentinel string. -/
theorem decode_error_tokens (parse : String → float64 × Option String) (t : Token)
    (rest : List Token) :
    ((t.valueType = .BoolValue ∨ t.valueType = .ArrayValue ∨ t.valueType = .ObjectValue ∨
        t.valueType = .InvalidValue) →
      decode parse ⟨t :: rest, none⟩ =
        (Float.zeroValue, ⟨t :: rest, some "fuzzyFloat64Decoder: not number or string"⟩)) ∧
    ((decode parse ⟨t :: rest, none⟩).2.Error.isSome = true ↔
      match t with
      | .null => False
      | .number lit => (parse lit).2.isSome = true
      | .string s => s ≠ "+Inf" ∧ s ≠ "-Inf" ∧ s ≠ "NaN"
      | _ => True) := by
  constructor
  · intro h
    rw [decode_other parse t rest none h]
    rfl
  · cases t with
    | null => simp [decode_null]
    | number lit =>
      rcases hp : parse lit with ⟨f, _ | e⟩
      · simp [decode_number_ok parse lit f rest none hp, hp]
      · simp [decode_number_err parse lit f e rest hp, hp]
    | string s =>
      by_cases hp : s = "+Inf"
      · subst hp; simp [decode_string_posInf]
      · by_cases hm : s = "-Inf"
        · subst hm; simp [decode_string_negInf]
        · by_cases hn : s = "NaN"
          · subst hn; simp [decode_string_NaN]
          · simp [decode_string_other parse s rest none hp hm hn, hp, hm, hn,
              Iterator.ReportError]
    | bool b =>
      simp [decode_other parse (.bool b) rest none (Or.inl rfl), Iterator.ReportError]
    | array elems =>
      simp [decode_other parse (.array elems) rest none (Or.inr (Or.inl rfl)),
        Iterator.ReportError]
    | object fields =>
      simp [decode_other parse (.object fields) rest none (Or.inr (Or.inr (Or.inl rfl))),
        Iterator.ReportError]
    | invalid =>
      simp [decode_other parse .invalid rest none (Or.inr (Or.inr (Or.inr rfl))),
        Iterator.ReportError]

/-- C10 amended, on concrete inputs: the boolean `true` and the record token are rejected
with the invalid zero value; `null` is not. -/
theorem decode_error_tokens_witness :
    decode sampleParse ⟨[Token.bool true], none⟩ =
      (Float.zeroValue, ⟨[Token.bool true], some "fuzzyFloat64Decoder: not number or string"⟩) ∧
    (decode sampleParse ⟨[Token.array []], none⟩).2.Error.isSome = true ∧
    ¬ ((decode sampleParse ⟨[Token.null], none⟩).2.Error.isSome = true) :=
  ⟨(decode_error_tokens sampleParse (Token.bool true) []).1 (Or.inl rfl),
   (decode_error_tokens sampleParse (Token.array []) []).2.2 trivial,
   fun h => (decode_error_tokens sampleParse Token.null []).2.1 h⟩

/-! ## The two codec adapters -/

/-- C11: the raw primitive and the nullable wrapper share one encoding: for every float64
`f`, `floatEncDec.Encode` on `f` writes what `nullFloatEncDec.Encode` writes on
`FloatFrom(f)`; a NaN is written by both as the string `"NaN"`; and a raw float is never
written as `null`. -/
theorem floatEncDec_encode_shared (format : float64 → String) (f : float64)
    (stream : Stream) :
    floatEncDec.Encode format f stream =
      nullFloatEncDec.Encode format (FloatFrom f) stream ∧
    (math.IsNaN f = true →
      floatEncDec.Encode format f stream =
        { stream with buf := stream.buf ++ [Token.string "NaN"] } ∧
      nullFloatEncDec.Encode format (FloatFrom f) stream =
        { stream with buf := stream.buf ++ [Token.string "NaN"] }) ∧
    floatEncDec.Encode format f stream ≠
      { stream with buf := stream.buf ++ [Token.null] } := by
  refine ⟨rfl, fun h => ⟨encode_nan format (FloatFrom f) stream rfl h,
    encode_nan format (FloatFrom f) stream rfl h⟩, ?_⟩
  unfold floatEncDec.Encode
  cases hn : math.IsNaN f
  · cases hp : math.IsInf f 1
    · cases hm : math.IsInf f (-1)
      · rw [encode_finite format (FloatFrom f) stream rfl hn hp hm]
        simp
      · rw [encode_negInf format (FloatFrom f) stream rfl hm]
        simp
    · rw [encode_posInf format (FloatFrom f) stream rfl hp]
      simp
  · rw [encode_nan format (FloatFrom f) stream rfl hn]
    simp

/-- C11, on concrete inputs: the raw NaN and the valid nullable NaN are both written as
the string `"NaN"`. -/
theorem floatEncDec_encode_shared_witness :
    floatEncDec.Encode sampleFormat math.NaN ⟨[], none⟩ = ⟨[Token.string "NaN"], none⟩ ∧
    nullFloatEncDec.Encode sampleFormat (FloatFrom math.NaN) ⟨[], none⟩ =
      ⟨[Token.string "NaN"], none⟩ :=
  (floatEncDec_encode_shared sampleFormat math.NaN ⟨[], none⟩).2.1 rfl

/-- C12: the sentinel strings are fixed points of decode-then-encode: encoding the `Float`
that `decode` returns for the string token `"NaN"`, `"+Inf"` or `"-Inf"` writes that
string token again. -/
theorem sentinel_decode_encode (format : float64 → String)
    (parse : String → float64 × Option String) (rest : List Token) (stream : Stream) :
    encode format (decode parse ⟨Token.string "NaN" :: rest, none⟩).1 stream =
      { stream with buf := stream.buf ++ [Token.string "NaN"] } ∧
    encode format (decode parse ⟨Token.string "+Inf" :: rest, none⟩).1 stream =
      { stream with buf := stream.buf ++ [Token.string "+Inf"] } ∧
    encode format (decode parse ⟨Token.string "-Inf" :: rest, none⟩).1 stream =
      { stream with buf := stream.buf ++ [Token.string "-Inf"] } := by
  rw [decode_string_NaN, decode_string_posInf, decode_string_negInf]
  exact ⟨encode_nan format _ stream rfl rfl, encode_posInf format _ stream rfl rfl,
    encode_negInf format _ stream rfl rfl⟩

/-- C13: the `null` literal is consumed by `decode` without an error and gives the invalid
zero value; so for every `Float` that is not valid, decoding what `encode` writes gives
the invalid zero value, with no error. -/
theorem decode_null_invalid (format : float64 → String)
    (parse : String → float64 × Option String) (v : Float) (rest : List Token)
    (hv : v.Valid = false) :
    decode parse ⟨Token.null :: rest, none⟩ = (Float.zeroValue, ⟨rest, none⟩) ∧
    roundTrip format parse v = (Float.zeroValue, ⟨[], none⟩) := by
  refine ⟨decode_null parse rest none, ?_⟩
  have e := encode_invalid format v ⟨[], none⟩ hv
  simp only [roundTrip, e, List.nil_append]
  exact decode_null parse [] none

/-- C13, on a concrete input: the invalid `Float` that holds `10.0` comes back as the
invalid zero value. -/
theorem decode_null_invalid_witness :
    (NewFloat f64_10 false).Valid = false ∧
    roundTrip sampleFormat sampleParse (NewFloat f64_10 false) =
      (Float.zeroValue, ⟨[], none⟩) :=
  ⟨rfl, (decode_null_invalid sampleFormat sampleParse (NewFloat f64_10 false) [] rfl).2⟩

/-! ## The nullable value -/

/-- C14, as stated, fails: the sources require the opposite at a valid zero. No
implementation of `IsZero` that passes `TestFloatIsZero` returns true on
`NewFloat(0, true)`, and none that passes `TestIntIsZero` returns true on
`NewInt(0, true)`; the `IsZero` worded by §4.1 does return true there and fails both
tests. -/
theorem isZero_valid_zero_counterexample :
    (¬ ∃ IsZero : Float → Bool,
        TestFloatIsZero IsZero = true ∧ IsZero (NewFloat float64.zero true) = true) ∧
    (¬ ∃ IsZero : Int → Bool,
        TestIntIsZero IsZero = true ∧ IsZero (NewInt 0 true) = true) ∧
    (NewFloat float64.zero true).IsZero = true ∧
    (NewInt 0 true).IsZero = true ∧
    TestFloatIsZero Float.IsZero = false ∧
    TestIntIsZero Int.IsZero = false := by
  refine ⟨?_, ?_, by decide, by decide, by decide, by decide⟩
  · rintro ⟨IsZero, ht, hz⟩
    simp [TestFloatIsZero, hz] at ht
  · rintro ⟨IsZero, ht, hz⟩
    simp [TestIntIsZero, hz] at ht

/-- C14, amended: what the tests of the repository fix about `IsZero`. For every
implementation that passes `TestFloatIsZero` and every implementation that passes
`TestIntIsZero`, `IsZero()` is true on the invalid zero (`NewFloat(0, false)`,
`NewInt(0, false)`), false on the valid non-zero value (`FloatFrom(1.2345)`,
`IntFrom(12345)`), and false on the valid zero (`NewFloat(0, true)`, `NewInt(0, true)`). -/
theorem isZero_tested (floatIsZero : Float → Bool) (intIsZero : Int → Bool)
    (hf : TestFloatIsZero floatIsZero = true) (hi : TestIntIsZero intIsZero = true) :
    (floatIsZero (NewFloat float64.zero false) = true ∧
      floatIsZero (FloatFrom f64_1_2345) = false ∧
      floatIsZero (NewFloat float64.zero true) = false) ∧
    (intIsZero (NewInt 0 false) = true ∧
      intIsZero (IntFrom 12345) = false ∧
      intIsZero (NewInt 0 true) = false) := by
  simp only [TestFloatIsZero, TestIntIsZero, Bool.and_eq_true, Bool.not_eq_true'] at hf hi
  exact ⟨⟨hf.1.2, hf.1.1, hf.2⟩, ⟨hi.1.2, hi.1.1, hi.2⟩⟩

/-- C14 amended, on a concrete input: the implementation "not valid" passes both tests, so
it is false on the valid zero of either kind. -/
theorem isZero_tested_witness :
    TestFloatIsZero (fun f => !f.Valid) = true ∧
    TestIntIsZero (fun i => !i.Valid) = true ∧
    (fun f : Float => !f.Valid) (NewFloat float64.zero true) = false ∧
    (fun i : Int => !i.Valid) (NewInt 0 true) = false :=
  ⟨by decide, by decide,
   (isZero_tested (fun f => !f.Valid) (fun i => !i.Valid) (by decide) (by decide)).1.2.2,
   (isZero_tested (fun f => !f.Valid) (fun i => !i.Valid) (by decide) (by decide)).2.2.2⟩

/-! ## The arithmetic overlay -/

theorem int_dividedBy_invalid (i j : Int) (h : i.Valid = false ∨ j.Valid = false) :
    i.DividedBy j = some Int.zeroValue := by
  rcases h with h | h <;> simp [Int.DividedBy, h]

theorem int_dividedBy_zero (i j : Int) (h : j.Int64 = 0) :
    i.DividedBy j = some Int.zeroValue := by
  unfold Int.DividedBy
  split
  · rfl
  · simp [h]

theorem int_dividedBy_nonzero (i j : Int) (hi : i.Valid = true) (hj : j.Valid = true)
    (h : j.Int64 ≠ 0) :
    i.DividedBy j = some (NewInt (int64.wrap (Int.tdiv i.Int64 j.Int64)) true) := by
  simp [Int.DividedBy, hi, hj, h, int64.div]

/-- C15: integer division never panics: `DividedBy` returns for every pair of operands.
For a valid dividend, a valid divisor equal to `0` gives a result that is not valid, and
a valid divisor other than `0` gives a valid result. -/
theorem int_dividedBy_guarded (a d : Int) (ha : a.Valid = true) (hd : d.Valid = true) :
    (∀ i j : Int, (i.DividedBy j).isSome = true) ∧
    (d.Int64 = 0 → ∃ r, a.DividedBy d = some r ∧ r.Valid = false) ∧
    (d.Int64 ≠ 0 → ∃ r, a.DividedBy d = some r ∧ r.Valid = true) := by
  refine ⟨fun i j => ?_, fun h => ⟨_, int_dividedBy_zero a d h, rfl⟩,
    fun h => ⟨_, int_dividedBy_nonzero a d ha hd h, rfl⟩⟩
  by_cases h0 : j.Int64 = 0
  · rw [int_dividedBy_zero i j h0]; rfl
  · cases hi : i.Valid
    · rw [int_dividedBy_invalid i j (Or.inl hi)]; rfl
    · cases hj : j.Valid
      · rw [int_dividedBy_invalid i j (Or.inr hj)]; rfl
      · rw [int_dividedBy_nonzero i j hi hj h0]; rfl

/-- C15, on concrete inputs: `1 / 0` is the invalid zero value, `5 / 1` is the valid `5`,
the most negative value divided by `-1` wraps instead of failing, and `TestIntDividedBy`
passes. -/
theorem int_dividedBy_guarded_witness :
    (NewInt 1 true).DividedBy (NewInt 0 true) = some Int.zeroValue ∧
    (NewInt 5 true).DividedBy (NewInt 1 true) = some (NewInt 5 true) ∧
    (NewInt (-9223372036854775808) true).DividedBy (NewInt (-1) true) =
      some (NewInt (-9223372036854775808) true) ∧
    (∃ r, (NewInt 1 true).DividedBy (NewInt 0 true) = some r ∧ r.Valid = false) ∧
    TestIntDividedBy = true :=
  ⟨by decide, by decide, by decide,
   (int_dividedBy_guarded (NewInt 1 true) (NewInt 0 true) rfl rfl).2.1 rfl, by decide⟩

/-- C16: nullity is absorbing. For Float and for Int, when either operand is not valid
(whatever raw values are stored), each of `Plus`, `Minus`, `Times` and `DividedBy` returns
a result that is not valid and whose `ValueOrZero()` is `0`; `DividedBy` does not
panic. -/
theorem arithmetic_nullity_absorbing :
    (∀ (ar : FloatArith) (a b : Float), a.Valid = false ∨ b.Valid = false →
      ((a.Plus ar b).Valid = false ∧ (a.Plus ar b).ValueOrZero = float64.zero) ∧
      ((a.Minus ar b).Valid = false ∧ (a.Minus ar b).ValueOrZero = float64.zero) ∧
      ((a.Times ar b).Valid = false ∧ (a.Times ar b).ValueOrZero = float64.zero) ∧
      ((a.DividedBy ar b).Valid = false ∧
        (a.DividedBy ar b).ValueOrZero = float64.zero)) ∧
    (∀ a b : Int, a.Valid = false ∨ b.Valid = false →
      ((a.Plus b).Valid = false ∧ (a.Plus b).ValueOrZero = 0) ∧
      ((a.Minus b).Valid = false ∧ (a.Minus b).ValueOrZero = 0) ∧
      ((a.Times b).Valid = false ∧ (a.Times b).ValueOrZero = 0) ∧
      (∃ r, a.DividedBy b = some r ∧ r.Valid = false ∧ r.ValueOrZero = 0)) := by
  constructor
  · intro ar a b h
    rcases h with h | h <;>
      simp [Float.Plus, Float.Minus, Float.Times, Float.DividedBy, h, Float.zeroValue,
        Float.ValueOrZero]
  · intro a b h
    refine ⟨?_, ?_, ?_, ⟨_, int_dividedBy_invalid a b h, rfl, rfl⟩⟩ <;>
      rcases h with h | h <;>
      simp [Int.Plus, Int.Minus, Int.Times, h, Int.zeroValue, Int.ValueOrZero]

/-- C16, on concrete inputs: an invalid operand that stores `10.0` (or `7`) still gives the
invalid zero value, and the tests `TestFloatPlus`, `TestFloatDividedBy`, `TestIntTimes`
pass. -/
theorem arithmetic_nullity_absorbing_witness :
    ((NewFloat f64_10 false).Plus sampleArith (NewFloat f64_4 true)).Valid = false ∧
    ((NewInt 5 true).Times (NewInt 7 false)).ValueOrZero = 0 ∧
    TestFloatPlus sampleArith = true ∧
    TestFloatDividedBy sampleArith = true ∧
    TestIntTimes = true :=
  ⟨((arithmetic_nullity_absorbing.1 sampleArith (NewFloat f64_10 false) (NewFloat f64_4 true)
      (Or.inl rfl)).1).1,
   ((arithmetic_nullity_absorbing.2 (NewInt 5 true) (NewInt 7 false) (Or.inr rfl)).2.2.1).2,
   by decide, by decide, by decide⟩

/-- C19: for every nullable value (Float and Int), `ValueOrZero()` is the stored value
when the value is valid and the kind's zero when it is not, whatever raw value is stored:
`NewFloat(1.2345, false).ValueOrZero()` and `NewInt(12345, false).ValueOrZero()` are `0`. -/
theorem valueOrZero_spec (v : Float) (i : Int) :
    (v.Valid = true → v.ValueOrZero = v.Float64) ∧
    (v.Valid = false → v.ValueOrZero = float64.zero) ∧
    (i.Valid = true → i.ValueOrZero = i.Int64) ∧
    (i.Valid = false → i.ValueOrZero = 0) ∧
    (NewFloat f64_1_2345 false).ValueOrZero = float64.zero ∧
    (NewInt 12345 false).ValueOrZero = 0 := by
  refine ⟨fun h => ?_, fun h => ?_, fun h => ?_, fun h => ?_, rfl, rfl⟩ <;>
    simp [Float.ValueOrZero, Int.ValueOrZero, h]

/-- C19, on concrete inputs: a valid `1.2345` and a valid `12345` are returned as stored,
and the tests `TestFloatValueOrZero`, `TestIntValueOrZero` pass. -/
theorem valueOrZero_spec_witness :
    (NewFloat f64_1_2345 true).ValueOrZero = f64_1_2345 ∧
    (NewInt 12345 true).ValueOrZero = 12345 ∧
    TestFloatValueOrZero = true ∧
    TestIntValueOrZero = true :=
  ⟨(valueOrZero_spec (NewFloat f64_1_2345 true) (NewInt 12345 true)).1 rfl,
   (valueOrZero_spec (NewFloat f64_1_2345 true) (NewInt 12345 true)).2.2.1 rfl,
   by decide, by decide⟩

/-! ## The two encode paths -/

/-- C18: the two structured encode paths differ exactly on the non-finite values. With
`formatDirect` the number formatter of the direct path and `formatFast` that of the
engine: on a valid `Float` that holds a NaN, positive infinity or negative infinity, the
direct `Float.MarshalJSON` returns an error and no token, while the fast-path `encode`
writes the sentinel string and sets no error; on a valid finite `Float` both paths
succeed and emit the bare number literal of the value; on a `Float` that is not valid
both paths emit `null`. -/
theorem marshal_vs_encode (formatDirect formatFast : float64 → String) (v : Float)
    (stream : Stream) :
    (v.Valid = true → math.IsNaN v.Float64 = true →
      Float.MarshalJSON formatDirect v = .error .RangeError ∧
      encode formatFast v stream =
        { stream with buf := stream.buf ++ [Token.string "NaN"] }) ∧
    (v.Valid = true → math.IsInf v.Float64 1 = true →
      Float.MarshalJSON formatDirect v = .error .RangeError ∧
      encode formatFast v stream =
        { stream with buf := stream.buf ++ [Token.string "+Inf"] }) ∧
    (v.Valid = true → math.IsInf v.Float64 (-1) = true →
      Float.MarshalJSON formatDirect v = .error .RangeError ∧
      encode formatFast v stream =
        { stream with buf := stream.buf ++ [Token.string "-Inf"] }) ∧
    (v.Valid = true → math.IsNaN v.Float64 = false → math.IsInf v.Float64 1 = false →
      math.IsInf v.Float64 (-1) = false →
      Float.MarshalJSON formatDirect v = .ok (Token.number (formatDirect v.Float64)) ∧
      encode formatFast v stream =
        { stream with buf := stream.buf ++ [Token.number (formatFast v.Float64)] }) ∧
    (v.Valid = false →
      Float.MarshalJSON formatDirect v = .ok Token.null ∧
      encode formatFast v stream = { stream with buf := stream.buf ++ [Token.null] }) := by
  refine ⟨fun hv h => ⟨?_, encode_nan formatFast v stream hv h⟩,
    fun hv h => ⟨?_, encode_posInf formatFast v stream hv h⟩,
    fun hv h => ⟨?_, encode_negInf formatFast v stream hv h⟩,
    fun hv hn hp hm => ⟨?_, encode_finite formatFast v stream hv hn hp hm⟩,
    fun hv => ⟨?_, encode_invalid formatFast v stream hv⟩⟩
  · simp [Float.MarshalJSON, hv, h]
  · simp [Float.MarshalJSON, hv, isInf_zero_iff, h]
  · simp [Float.MarshalJSON, hv, isInf_zero_iff, h]
  · simp [Float.MarshalJSON, hv, isInf_zero_iff, hn, hp, hm]
  · simp [Float.MarshalJSON, hv]

/-- C18, on concrete inputs: the valid NaN and the valid positive infinity of
`TestFloatInfNaN`, the valid `1.2345` and the invalid zero value of `TestMarshalFloat`;
both tests pass. -/
theorem marshal_vs_encode_witness :
    (Float.MarshalJSON sampleFormat (NewFloat math.NaN true) = .error .RangeError ∧
      encode sampleFormat (NewFloat math.NaN true) ⟨[], none⟩ =
        ⟨[Token.string "NaN"], none⟩) ∧
    (Float.MarshalJSON sampleFormat (NewFloat (math.Inf 1) true) = .error .RangeError ∧
      encode sampleFormat (NewFloat (math.Inf 1) true) ⟨[], none⟩ =
        ⟨[Token.string "+Inf"], none⟩) ∧
    (Float.MarshalJSON sampleFormat (FloatFrom f64_1_2345) = .ok (Token.number "1.2345") ∧
      encode sampleFormat (FloatFrom f64_1_2345) ⟨[], none⟩ =
        ⟨[Token.number "1.2345"], none⟩) ∧
    (Float.MarshalJSON sampleFormat Float.zeroValue = .ok Token.null ∧
      encode sampleFormat Float.zeroValue ⟨[], none⟩ = ⟨[Token.null], none⟩) ∧
    TestFloatInfNaN sampleFormat = true ∧
    TestMarshalFloat sampleFormat = true :=
  ⟨(marshal_vs_encode sampleFormat sampleFormat (NewFloat math.NaN true) ⟨[], none⟩).1
      rfl rfl,
   (marshal_vs_encode sampleFormat sampleFormat (NewFloat (math.Inf 1) true) ⟨[], none⟩).2.1
      rfl rfl,
   (marshal_vs_encode sampleFormat sampleFormat (FloatFrom f64_1_2345) ⟨[], none⟩).2.2.2.1
      rfl rfl rfl rfl,
   (marshal_vs_encode sampleFormat sampleFormat Float.zeroValue ⟨[], none⟩).2.2.2.2 rfl,
   by decide, by decide⟩

/-! ## Integer decoding -/

theorem digitChar_isDigit (d : Nat) (h : d < 10) :
    (Nat.digitChar d).isDigit = true ∧ (Nat.digitChar d).toNat - 48 = d := by
  interval_cases d <;> exact ⟨by decide, by decide⟩

theorem formatUintAux_value (fuel : Nat) :
    ∀ (n : Nat) (acc : List Char), n < fuel →
      (formatUintAux fuel n acc).foldl (fun a c => 10 * a + (c.toNat - 48)) 0 =
        acc.foldl (fun a c => 10 * a + (c.toNat - 48)) n := by
  induction fuel with
  | zero => intro n acc h; omega
  | succ fuel ih =>
    intro n acc h
    unfold formatUintAux
    split
    · rename_i hlt
      simp [List.foldl, (digitChar_isDigit n hlt).2]
    · rw [ih (n / 10) _ (by omega)]
      simp only [List.foldl, (digitChar_isDigit (n % 10) (Nat.mod_lt n (by decide))).2]
      congr 1
      omega

theorem formatUintAux_digits (fuel : Nat) :
    ∀ (n : Nat) (acc : List Char), n < fuel → acc.all Char.isDigit = true →
      (formatUintAux fuel n acc).all Char.isDigit = true ∧ formatUintAux fuel n acc ≠ [] := by
  induction fuel with
  | zero => intro n acc h; omega
  | succ fuel ih =>
    intro n acc h hacc
    unfold formatUintAux
    split
    · rename_i hlt
      simp [(digitChar_isDigit n hlt).1, hacc]
    · exact ih (n / 10) _ (by omega)
        (by simp [(digitChar_isDigit (n % 10) (Nat.mod_lt n (by decide))).1, hacc])

theorem parseLiteral_digits (ds : List Char) (hne : ds ≠ [])
    (hd : ds.all Char.isDigit = true) :
    Int.parseLiteral (String.mk ds) = int64.checkRange (decimalValue ds : ℤ) := by
  cases ds with
  | nil => exact absurd rfl hne
  | cons c r =>
    have hc : c ≠ '-' := by
      intro e
      subst e
      simp at hd
    have e1 : (match c :: r with
        | '-' :: r => r
        | cs => cs) = c :: r := by
      split
      · rename_i heq
        simp only [List.cons.injEq] at heq
        exact absurd heq.1 hc
      · rfl
    have e2 : (match c :: r with
        | '-' :: _ => true
        | _ => false) = false := by
      split
      · rename_i heq
        simp only [List.cons.injEq] at heq
        exact absurd heq.1 hc
      · rfl
    unfold Int.parseLiteral
    simp only [e1, e2, hd]
    simp

theorem unmarshal_formatUint (n : Nat) :
    Int.UnmarshalJSON (Token.number (FormatUint n)) =
      match int64.checkRange (n : ℤ) with
      | .ok v => (NewInt v true, none)
      | .error e => (Int.zeroValue, some e) := by
  have h1 := formatUintAux_digits (n + 1) n [] (by omega) rfl
  have h2 := formatUintAux_value (n + 1) n [] (by omega)
  simp only [List.foldl] at h2
  unfold Int.UnmarshalJSON FormatUint
  simp only []
  rw [parseLiteral_digits _ h1.2 h1.1, decimalValue, h2]

/-- C17: integer decoding detects overflow at the exact signed 64-bit boundary. The bare
literal `9223372036854775807` decodes to the valid `2^63 - 1`; the decimal literal of
any `n` up to `2^63 - 1` decodes to the valid `n`; the decimal literal of any `n` above
`2^63 - 1` gives a `RangeError` and the invalid zero value, never a wrapped or truncated
value. -/
theorem int_unmarshal_overflow (n : Nat) :
    Int.UnmarshalJSON (Token.number "9223372036854775807") =
      (NewInt 9223372036854775807 true, none) ∧
    (n ≤ 9223372036854775807 →
      Int.UnmarshalJSON (Token.number (FormatUint n)) = (NewInt (n : ℤ) true, none)) ∧
    (n > 9223372036854775807 →
      Int.UnmarshalJSON (Token.number (FormatUint n)) =
        (Int.zeroValue, some ErrorKind.RangeError)) := by
  refine ⟨by decide, fun h => ?_, fun h => ?_⟩
  · rw [unmarshal_formatUint]
    have : (-9223372036854775808 : ℤ) ≤ (n : ℤ) ∧ (n : ℤ) ≤ 9223372036854775807 := by
      constructor <;> omega
    simp only [int64.checkRange]
    rw [if_pos this]
  · rw [unmarshal_formatUint]
    have : ¬ ((-9223372036854775808 : ℤ) ≤ (n : ℤ) ∧ (n : ℤ) ≤ 9223372036854775807) := by
      intro hc
      omega
    simp only [int64.checkRange]
    rw [if_neg this]

/-- C17, on concrete inputs: `2^63` is written `9223372036854775808` and is rejected, a
larger literal is rejected too, and `TestUnmarshalInt64Overflow` passes. -/
theorem int_unmarshal_overflow_witness :
    FormatUint 9223372036854775808 = "9223372036854775808" ∧
    Int.UnmarshalJSON (Token.number (FormatUint 9223372036854775808)) =
      (Int.zeroValue, some ErrorKind.RangeError) ∧
    Int.UnmarshalJSON (Token.number "18446744073709551616") =
      (Int.zeroValue, some ErrorKind.RangeError) ∧
    Int.UnmarshalJSON (Token.number (FormatUint 12345)) = (NewInt 12345 true, none) ∧
    TestUnmarshalInt64Overflow = true :=
  ⟨by decide, (int_unmarshal_overflow 9223372036854775808).2.2 (by decide), by decide,
   (int_unmarshal_overflow 12345).2.1 (by decide), by decide⟩

/-! ## The raw float64 target -/

theorem decode_number_value (parse : String → float64 × Option String) (lit : String)
    (rest : List Token) :
    (decode parse ⟨Token.number lit :: rest, none⟩).1 = FloatFrom (parse lit).1 := by
  rcases hp : parse lit with ⟨f, _ | e⟩
  · rw [decode_number_ok parse lit f rest none hp]
  · rw [decode_number_err parse lit f e rest hp]

/-- C20: `floatEncDec.Decode` always overwrites the raw float64 target with the `Float64`
of the result of `decode`, whatever the target held. For a `null` token, and for every
token on which `decode` reports an error (boolean, array, object, no JSON value, string
other than the sentinels), the target becomes `0`, so a `null` leaves the same target as
a number token that parses to `0`; for a number token the target becomes what the
engine's parser returned, and for a sentinel string the NaN or infinity it names. -/
theorem floatEncDec_decode_overwrites (parse : String → float64 × Option String)
    (old : float64) (rest : List Token) :
    (∀ iter : Iterator,
      floatEncDec.Decode parse old iter = ((decode parse iter).1.Float64, (decode parse iter).2)) ∧
    (floatEncDec.Decode parse old ⟨Token.null :: rest, none⟩).1 = float64.zero ∧
    (∀ t : Token,
      (t.valueType = .BoolValue ∨ t.valueType = .ArrayValue ∨ t.valueType = .ObjectValue ∨
        t.valueType = .InvalidValue) →
      (floatEncDec.Decode parse old ⟨t :: rest, none⟩).1 = float64.zero ∧
      (floatEncDec.Decode parse old ⟨t :: rest, none⟩).2.Error.isSome = true) ∧
    (∀ s : String, s ≠ "+Inf" → s ≠ "-Inf" → s ≠ "NaN" →
      (floatEncDec.Decode parse old ⟨Token.string s :: rest, none⟩).1 = float64.zero ∧
      (floatEncDec.Decode parse old ⟨Token.string s :: rest, none⟩).2.Error.isSome = true) ∧
    (∀ lit : String,
      (floatEncDec.Decode parse old ⟨Token.number lit :: rest, none⟩).1 = (parse lit).1) ∧
    ((floatEncDec.Decode parse old ⟨Token.string "NaN" :: rest, none⟩).1 = math.NaN ∧
      (floatEncDec.Decode parse old ⟨Token.string "+Inf" :: rest, none⟩).1 = math.Inf 1 ∧
      (floatEncDec.Decode parse old ⟨Token.string "-Inf" :: rest, none⟩).1 = math.Inf (-1)) ∧
    (∀ lit : String, parse lit = (float64.zero, none) →
      floatEncDec.Decode parse old ⟨Token.null :: rest, none⟩ =
        floatEncDec.Decode parse old ⟨Token.number lit :: rest, none⟩) := by
  refine ⟨fun iter => rfl, ?_, fun t h => ?_, fun s hp hm hn => ?_, fun lit => ?_,
    ⟨?_, ?_, ?_⟩, fun lit h => ?_⟩
  · simp only [floatEncDec.Decode, decode_null]
    rfl
  · simp only [floatEncDec.Decode, decode_other parse t rest none h]
    exact ⟨rfl, reportError_isSome _ _ _⟩
  · simp only [floatEncDec.Decode, decode_string_other parse s rest none hp hm hn]
    exact ⟨rfl, reportError_isSome _ _ _⟩
  · simp only [floatEncDec.Decode, decode_number_value]
    rfl
  · simp only [floatEncDec.Decode, decode_string_NaN]
    rfl
  · simp only [floatEncDec.Decode, decode_string_posInf]
    rfl
  · simp only [floatEncDec.Decode, decode_string_negInf]
    rfl
  · simp only [floatEncDec.Decode, decode_null,
      decode_number_ok parse lit float64.zero rest none h]
    rfl

/-- C20, on concrete inputs: a target that held `10.0` becomes `0` on `null`, on `true`
and on the string `"abc"`, exactly as on the number `0`, and becomes `1.2345` on the
number `1.2345`. -/
theorem floatEncDec_decode_overwrites_witness :
    (floatEncDec.Decode sampleParse f64_10 ⟨[Token.null], none⟩).1 = float64.zero ∧
    (floatEncDec.Decode sampleParse f64_10 ⟨[Token.bool true], none⟩).1 = float64.zero ∧
    (floatEncDec.Decode sampleParse f64_10 ⟨[Token.string "abc"], none⟩).1 = float64.zero ∧
    floatEncDec.Decode sampleParse f64_10 ⟨[Token.null], none⟩ =
      floatEncDec.Decode sampleParse f64_10 ⟨[Token.number "0"], none⟩ ∧
    (floatEncDec.Decode sampleParse f64_10 ⟨[Token.number "1.2345"], none⟩).1 = f64_1_2345 :=
  ⟨(floatEncDec_decode_overwrites sampleParse f64_10 []).2.1,
   ((floatEncDec_decode_overwrites sampleParse f64_10 []).2.2.1 (Token.bool true)
      (Or.inl rfl)).1,
   ((floatEncDec_decode_overwrites sampleParse f64_10 []).2.2.2.1 "abc" (by decide)
      (by decide) (by decide)).1,
   (floatEncDec_decode_overwrites sampleParse f64_10 []).2.2.2.2.2.2 "0" (by decide),
   (floatEncDec_decode_overwrites sampleParse f64_10 []).2.2.2.2.1 "1.2345"⟩

end null
